import Mathlib

set_option maxRecDepth 8000

namespace BookHub

/-!
Shallow embedding of the Book Hub repository: the frontend handlers from
`docs/app.js` and the quiz-based variant of the same file, together with a
spec-modelled backend review store and recommendation engine (the backend
`server.py` is not among the provided sources; only the spec describes it).
-/

/-- Whitespace characters removed by the JavaScript `String.prototype.trim`
(ASCII whitespace plus the common Unicode space characters and the BOM). -/
def isJsWhitespace (c : Char) : Bool :=
  c == ' ' || c == '\t' || c == '\n' || c == '\r' || c == '\x0b' || c == '\x0c' ||
  c == ' ' || c == ' ' || c == ' ' || c == ' ' || c == ' ' ||
  c == ' ' || c == ' ' || c == ' ' || c == ' ' || c == ' ' ||
  c == ' ' || c == ' ' || c == ' ' || c == ' ' || c == ' ' ||
  c == ' ' || c == ' ' || c == '　' || c == '﻿'

/-- JavaScript `s.trim()`: drop leading and trailing whitespace. -/
def jsTrim (s : String) : String :=
  String.mk (((s.toList.dropWhile isJsWhitespace).reverse.dropWhile isJsWhitespace).reverse)

/-- Value of a digit list read in base 10. -/
def digitsToNat (ds : List Char) : Nat :=
  ds.foldl (fun a c => a * 10 + (c.toNat - 48)) 0

/-- JavaScript `parseInt(s, 10)`: skip leading whitespace, read an optional
sign and then the maximal run of leading decimal digits; `none` models NaN
(no digit found). -/
def jsParseInt (s : String) : Option Int :=
  let core : List Char → Int → Option Int := fun cs sign =>
    let ds := cs.takeWhile Char.isDigit
    if ds.isEmpty then none else some (sign * (digitsToNat ds : Int))
  match s.toList.dropWhile isJsWhitespace with
  | '-' :: rest => core rest (-1)
  | '+' :: rest => core rest 1
  | rest => core rest 1

/-- JavaScript `Array.prototype.join(sep)`. -/
def joinSep (sep : String) : List String → String
  | [] => ""
  | [x] => x
  | x :: y :: t => x ++ sep ++ joinSep sep (y :: t)

/- ### Blog page (docs/app.js and the quiz variant, identical handlers) -/

/-- Outcome of a page handler: either show a message and stop without
issuing a request, or issue an HTTP request carrying the given query. -/
inductive RecommendAction where
  | showError (msg : String)
  | sendRequest (query : String)
deriving DecidableEq

/-- docs/app.js `handleRecommend`: trim the query; when the trimmed query is
empty, set the error message and return before the fetch; otherwise POST the
trimmed query to the recommendations endpoint. -/
def handleRecommend (query : String) : RecommendAction :=
  let q := jsTrim query
  if q = "" then .showError "Please enter a description of what you like to read."
  else .sendRequest q

/-- The JSON payload `handleSubmit` builds for the review-creation request. -/
structure SubmitPayload where
  author : String
  title : String
  content : String
  score : Option Int
  image : Option String
deriving DecidableEq

/-- Outcome of the review form handler. -/
inductive SubmitAction where
  | showError (msg : String)
  | send (payload : SubmitPayload)
deriving DecidableEq

/-- JavaScript truthiness guard `if (imageBase64) payload.image = imageBase64`:
the image field is attached only for a non-null, non-empty base64 string. -/
def imageField : Option String → Option String
  | none => none
  | some s => if s = "" then none else some s

/-- `handleSubmit` from the blog page: build the payload with trimmed text
fields and `parseInt(score, 10)`; if any trimmed required field is empty, show
the validation message and return without sending; otherwise send the payload
(with the image attached when one was supplied). -/
def handleSubmit (author title content scoreRaw : String)
    (imageBase64 : Option String) : SubmitAction :=
  let payload : SubmitPayload :=
    { author := jsTrim author, title := jsTrim title, content := jsTrim content,
      score := jsParseInt scoreRaw, image := none }
  if payload.author = "" ∨ payload.title = "" ∨ payload.content = "" then
    .showError "Please fill in all required fields."
  else
    .send { payload with image := imageField imageBase64 }

/-- The DELETE request `handleDelete` issues. -/
structure DeleteRequest where
  reviewId : Int
  method : String
  headers : List (String × String)
deriving DecidableEq

/-- `handleDelete` from the quiz-variant blog page: prompt for a passcode and
return at once when the prompt is cancelled or empty; return when the
confirmation dialog is declined; otherwise issue a DELETE request whose
`X-Delete-Passcode` header carries the passcode. The client review list is
returned unchanged in every case (it is only refreshed by a later response). -/
def handleDelete {α : Type} (reviews : List α) (reviewId : Int)
    (promptResult : Option String) (confirmed : Bool) :
    List α × Option DeleteRequest :=
  match promptResult with
  | none => (reviews, none)
  | some passcode =>
    if passcode = "" then (reviews, none)
    else if confirmed = false then (reviews, none)
    else (reviews, some { reviewId := reviewId, method := "DELETE",
                          headers := [("X-Delete-Passcode", passcode)] })

/- ### Recommendation quiz page (quiz-variant app.js) -/

/-- Kind of a quiz question: a fixed-choice question or a free-text one. -/
inductive QType where
  | choice
  | text
deriving DecidableEq

/-- A quiz question. The option lists of the source `QUESTIONS` array are
presentation data never read by `buildQuery`, `canProceed` or the submission
logic, so only the prompt and the type are embedded. -/
structure Question where
  prompt : String
  qtype : QType
deriving DecidableEq

/-- The `QUESTIONS` array of the quiz page, in source order. -/
def QUESTIONS : List Question :=
  [ { prompt := "What would you find most enjoyable in a book?", qtype := .choice },
    { prompt := "Given the chance, how would you choose to spend your holidays this year?",
      qtype := .choice },
    { prompt := "Who would be the first name on the invitation to your fantasy dinner party?",
      qtype := .choice },
    { prompt := "What did you resolve to change this year?", qtype := .choice },
    { prompt := "Which type of writing most appeals to you?", qtype := .choice },
    { prompt := "Do you prefer fiction or nonfiction?", qtype := .choice },
    { prompt := "Which fiction genre are you looking to read next?", qtype := .choice },
    { prompt := "Tell us the title of the last book you loved", qtype := .text },
    { prompt := "Do you prefer long reads or short books?", qtype := .choice },
    { prompt := "Do you like classic or contemporary fiction?", qtype := .choice },
    { prompt := "When reading you care most about:", qtype := .choice } ]

/-- Fallback question used for an out-of-range index lookup. -/
def defaultQuestion : Question := { prompt := "", qtype := .choice }

/-- The global recommendation record displayed by the client. -/
structure GlobalRecT where
  title : String
  author : String
  year : Int
deriving DecidableEq

/-- The local (Our Recommendation) record displayed by the client. -/
structure LocalRecT where
  title : String
  author : String
deriving DecidableEq

/-- State of the `RecommendationPage` component. `inFlight` is a history
variable listing the query text of every recommendation request that has been
sent and has not yet settled; `resultsQuery` is a history variable recording
the query text whose response produced the currently stored
`globalRec`/`localRec` values. Both only observe the code, they never steer it. -/
structure QuizState where
  step : Nat
  answers : List String
  globalRec : Option GlobalRecT
  localRec : Option LocalRecT
  message : String
  isSubmitting : Bool
  showResults : Bool
  inFlight : List String
  resultsQuery : Option String
deriving DecidableEq

/-- Initial component state: `useState(0)`, `QUESTIONS.map(() => "")`, nulls,
empty message, not submitting, no results shown. -/
def initQuiz : QuizState :=
  { step := 0, answers := QUESTIONS.map (fun _ => ""), globalRec := none, localRec := none,
    message := "", isSubmitting := false, showResults := false,
    inFlight := [], resultsQuery := none }

/-- `answers[step] || ""`. -/
def currentAnswer (s : QuizState) : String := s.answers.getD s.step ""

/-- `updateAnswer(value)`: write the answer of the current step, clear both
recommendations, hide the results, and clear a non-empty message. -/
def updateAnswer (s : QuizState) (v : String) : QuizState :=
  { s with
    answers := s.answers.set s.step v,
    globalRec := none,
    localRec := none,
    showResults := false,
    message := if s.message = "" then s.message else "" }

/-- `canProceed()`: a text question needs a non-blank trimmed answer, a choice
question a non-empty one; no current question means false. -/
def canProceed (s : QuizState) : Bool :=
  match QUESTIONS.get? s.step with
  | none => false
  | some q =>
    match q.qtype with
    | .text => jsTrim (currentAnswer s) != ""
    | .choice => currentAnswer s != ""

/-- One clause of `buildQuery`: a blank trimmed answer contributes the empty
string, a non-blank one contributes `prompt SPACE trimmed answer`. -/
def queryPart (q : Question) (raw : String) : String :=
  let answer := jsTrim raw
  if answer = "" then "" else q.prompt ++ " " ++ answer

/-- `buildQuery()`: map every question to its clause, drop the falsy (empty)
clauses, and join the rest with " . ". -/
def buildQuery (answers : List String) : String :=
  joinSep " . "
    (((List.range QUESTIONS.length).map
        (fun i => queryPart (QUESTIONS.getD i defaultQuestion) (answers.getD i ""))).filter
      (fun part => part != ""))

/-- `submitRecommendations()`: a no-op while a submission is in flight; an
empty built query only sets the message; otherwise clear message and results,
mark the component submitting and send the request (recorded in `inFlight`). -/
def submitRecommendations (s : QuizState) : QuizState :=
  if s.isSubmitting then s
  else
    let queryText := buildQuery s.answers
    if queryText = "" then
      { s with message := "Please answer the questions before submitting." }
    else
      { s with isSubmitting := true, message := "", globalRec := none, localRec := none,
               showResults := false, inFlight := s.inFlight ++ [queryText] }

/-- Arrival of a successful response for the oldest in-flight request: the
`.then` handler stores both recommendation fields and shows the results, and
the `.finally` handler resets `isSubmitting`. -/
def settleOk (s : QuizState) (g : Option GlobalRecT) (l : Option LocalRecT) : QuizState :=
  match s.inFlight with
  | [] => s
  | q :: rest =>
    { s with globalRec := g, localRec := l, showResults := true,
             isSubmitting := false, inFlight := rest, resultsQuery := some q }

/-- Arrival of a failed response: the `.catch` handler sets the backend-waking
message and hides the results, and the `.finally` handler resets
`isSubmitting`. -/
def settleErr (s : QuizState) : QuizState :=
  match s.inFlight with
  | [] => s
  | _ :: rest =>
    { s with
      message := "Backend may be waking up. If you\u0027re using Render\u0027s free tier, wait 30-60 seconds and try again.",
      showResults := false, isSubmitting := false, inFlight := rest }

/-- `goNext()`: when the current question cannot proceed, set the matching
hint; otherwise clear the message and either advance one step or, on the last
question, submit. -/
def goNext (s : QuizState) : QuizState :=
  if !canProceed s then
    { s with message :=
        match QUESTIONS.get? s.step with
        | some q =>
          match q.qtype with
          | .text => "Please enter a response to continue."
          | .choice => "Please choose an option to continue."
        | none => "Please choose an option to continue." }
  else
    let s1 := { s with message := "" }
    if s1.step < QUESTIONS.length - 1 then { s1 with step := s1.step + 1 }
    else submitRecommendations s1

/-- `goBack()`: step back one question and clear the message, except on the
first question. -/
def goBack (s : QuizState) : QuizState :=
  if 0 < s.step then { s with step := s.step - 1, message := "" } else s

/-- Events the recommendation page can process: user interactions plus the
two ways a sent request can settle. -/
inductive QuizEvent where
  | update (v : String)
  | next
  | back
  | ok (g : Option GlobalRecT) (l : Option LocalRecT)
  | err
deriving DecidableEq

/-- Apply one event to the component state. -/
def quizStep (s : QuizState) : QuizEvent → QuizState
  | .update v => updateAnswer s v
  | .next => goNext s
  | .back => goBack s
  | .ok g l => settleOk s g l
  | .err => settleErr s

/-- Run the component from its initial state through a list of events. -/
def runQuiz (es : List QuizEvent) : QuizState := es.foldl quizStep initQuiz

/-- The Our Recommendation block of the results panel: a present local
recommendation renders "title by author", an absent one renders the
not-enough-data sentence. -/
def localRecDisplay : Option LocalRecT → String
  | some r => r.title ++ " by " ++ r.author
  | none => "Sorry our site does not currently have enough data for Our Recommendation."

/- ### Spec-modelled backend: Review Store -/

/-- Modelled from the spec: a persisted Review row of the Review Store (§3).
The backend `server.py` is not among the provided sources. The out-of-band
`cover_image` blob and the `created_at` timestamp are not modelled because no
claim reads them. -/
structure Review where
  id : Int
  author : String
  title : String
  content : String
  score : Int
deriving DecidableEq

/-- Modelled from the spec: the Review Store state — an ordered collection of
rows and the next id to assign (ids are monotone and never reused, §3). -/
structure ReviewStore where
  rows : List Review
  nextId : Int
deriving DecidableEq

/-- Result of a Review Store submission. -/
inductive StoreSubmitResult where
  | ok (r : Review)
  | validationError (msg : String)
deriving DecidableEq

/-- Modelled from the spec: the Review Store `submit` operation (§4.1). Trims
the text fields; fails with a `ValidationError` when a trimmed required field
is empty or the score is not an integer in [0,10] (a non-integer score is
`none`); on success appends the row under the next id. The pre-state is
returned unchanged on every failure. -/
def storeSubmit (st : ReviewStore) (author title content : String)
    (score : Option Int) : ReviewStore × StoreSubmitResult :=
  let a := jsTrim author
  let t := jsTrim title
  let c := jsTrim content
  if a = "" ∨ t = "" ∨ c = "" then
    (st, .validationError "author, title and content are required")
  else
    match score with
    | none => (st, .validationError "score must be an integer between 0 and 10")
    | some n =>
      if n < 0 ∨ 10 < n then
        (st, .validationError "score must be an integer between 0 and 10")
      else
        let r : Review := { id := st.nextId, author := a, title := t, content := c, score := n }
        ({ rows := st.rows ++ [r], nextId := st.nextId + 1 }, .ok r)

/- ### Spec-modelled backend: similarity index and recommendation engine -/

/-- Characters kept by the word-boundary tokenizer (§4.2: case-folded,
tokenized on word boundaries). -/
def isWordChar (c : Char) : Bool := c.isAlpha || c.isDigit

/-- Accumulating tokenizer over a character list: split maximal runs of word
characters. -/
def tokenizeAux : List Char → List Char → List String
  | [], acc => if acc.isEmpty then [] else [String.mk acc.reverse]
  | c :: rest, acc =>
    if isWordChar c then tokenizeAux rest (c :: acc)
    else if acc.isEmpty then tokenizeAux rest []
    else String.mk acc.reverse :: tokenizeAux rest []

/-- Modelled from the spec: normalize text to a token list — case-fold, then
split on word boundaries (§4.2). -/
def tokens (s : String) : List String := tokenizeAux (s.toList.map Char.toLower) []

/-- Number of indexed documents containing a term. -/
def docCount (docs : List (List String)) (t : String) : Nat :=
  docs.countP (fun d => d.contains t)

/-- Modelled from the spec: the TF-IDF-style weight of a term in a document
(§4.2), in exact rational arithmetic so that scoring is deterministic (§4.4:
no order-dependent floating-point summation). The idf factor is the inverse
document frequency N/df; a term absent from the whole corpus (df = 0) weighs
zero, so query tokens outside the vocabulary contribute nothing (§4.4 step 1). -/
def termWeight (docs : List (List String)) (d : List String) (t : String) : ℚ :=
  let df := docCount docs t
  if df = 0 then 0 else (d.count t : ℚ) * ((docs.length : ℚ) / (df : ℚ))

/-- The vocabulary of an indexed corpus, in first-occurrence order (§3:
SimilarityIndex carries the global vocabulary used to vectorize queries). -/
def vocab (docs : List (List String)) : List String := docs.flatten.dedup

/-- Dot product of the weight vectors of two token lists over the corpus
vocabulary, summed in the fixed vocabulary order. -/
def dotQ (docs : List (List String)) (a b : List String) : ℚ :=
  ((vocab docs).map (fun t => termWeight docs a t * termWeight docs b t)).sum

/-- Modelled from the spec: the ranking score of a document against a query —
the squared cosine numerator normalized by the document norm (all dot products
here are nonnegative, so this orders documents exactly as cosine similarity
does, without square roots); an all-zero document scores 0. -/
def docScore (docs : List (List String)) (q d : List String) : ℚ :=
  let n := dotQ docs d d
  if n = 0 then 0 else (dotQ docs q d) ^ 2 / n

/-- Modelled from the spec: pick the single highest-scoring document, ties
broken by lowest index (first inserted wins, §4.4 step 3); a best score of
exactly zero yields no match (§4.4 step 4). -/
def bestIndex (docs : List (List String)) (q : List String) : Option Nat :=
  let best := (docs.map (docScore docs q)).enum.foldl
    (fun acc p =>
      match acc with
      | none => some p
      | some b => if b.2 < p.2 then some p else some b) none
  match best with
  | none => none
  | some (i, s) => if s = 0 then none else some i

/-- Modelled from the spec: a catalog entry of the global corpus (§3). -/
structure CatalogEntry where
  title : String
  author : String
  year : Int
  text : String
deriving DecidableEq

/-- The synthesized text field indexed per catalog entry (§4.2). -/
def catalogDoc (e : CatalogEntry) : List String :=
  tokens (e.title ++ " " ++ e.author ++ " " ++ e.text)

/-- The synthesized text field indexed per review (§4.3: title + author +
content). -/
def reviewDoc (r : Review) : List String :=
  tokens (r.title ++ " " ++ r.author ++ " " ++ r.content)

/-- Modelled from the spec: the global side of a recommendation — rank the
catalog against the query; an empty catalog or zero overlap yields null. -/
def recommendGlobal (catalog : List CatalogEntry) (q : String) : Option GlobalRecT :=
  let docs := catalog.map catalogDoc
  (bestIndex docs (tokens q)).bind fun i =>
    (catalog.get? i).map fun e => { title := e.title, author := e.author, year := e.year }

/-- Modelled from the spec: the local side of a recommendation — a Local
Corpus holding fewer reviews than the configured minimum threshold yields
null for every query (§4.3/§4.4 step 4); otherwise rank the reviews. -/
def recommendLocal (minReviews : Nat) (reviews : List Review) (q : String) : Option LocalRecT :=
  if reviews.length < minReviews then none
  else
    let docs := reviews.map reviewDoc
    (bestIndex docs (tokens q)).bind fun i =>
      (reviews.get? i).map fun r => { title := r.title, author := r.author }

/-- The engine's failure kind for a blank query (§4.4 validation). -/
inductive RecommendError where
  | emptyQuery
deriving DecidableEq

/-- A successful recommendation response: one optional best match per corpus. -/
structure RecResult where
  globalSide : Option GlobalRecT
  localSide : Option LocalRecT
deriving DecidableEq

/-- Modelled from the spec: `recommend(query_text)` (§4.4) — fails with the
empty-query error when the trimmed query is empty; otherwise returns the two
independently computed sides, where an unavailable corpus yields null for
that side, never an error. -/
def recommend (catalog : List CatalogEntry) (minReviews : Nat) (reviews : List Review)
    (q : String) : Except RecommendError RecResult :=
  if jsTrim q = "" then .error .emptyQuery
  else .ok { globalSide := recommendGlobal catalog q,
             localSide := recommendLocal minReviews reviews q }

/-- Modelled from the spec: a recommendation lookup as an operation on the
Review Store — it reads the current snapshot and never mutates the store. -/
def recommendOp (catalog : List CatalogEntry) (minReviews : Nat) (st : ReviewStore)
    (q : String) : ReviewStore × Except RecommendError RecResult :=
  (st, recommend catalog minReviews st.rows q)

/- ### Auxiliary definitions used only to state claims -/

/-- The quiz-to-query mapping exactly as claim C8 words it: keep, in question
order, the indices whose answer is non-blank after trimming, map each to
`prompt SPACE trimmed answer`, and join with " . ". To be compared with the
source-derived `buildQuery`. -/
def buildQueryDescribed (answers : List String) : String :=
  joinSep " . "
    (((List.range QUESTIONS.length).filter
        (fun i => jsTrim (answers.getD i "") != "")).map
      (fun i => (QUESTIONS.getD i defaultQuestion).prompt ++ " " ++ jsTrim (answers.getD i "")))

/-- Mutual-exclusion invariant of the recommendation page: when the component
is not marked submitting nothing is in flight, and never more than one request
is in flight. -/
def QuizInv (s : QuizState) : Prop :=
  (s.isSubmitting = false → s.inFlight = []) ∧ s.inFlight.length ≤ 1

/-- An event trace the quiz UI can actually produce: answer all eleven
questions, advance through them, submit on the last one, then — while the
request is still in flight, the answer buttons not being disabled — change the
answer of the last question, after which the response arrives. -/
def staleTrace : List QuizEvent :=
  [ .update "A compulsive plot with sophisticated twists", .next,
    .update "In New York, with a hotel just near Central Park", .next,
    .update "Stephen King", .next,
    .update "To keep up with current affairs", .next,
    .update "A pacy narrative with twists and turns", .next,
    .update "Fiction", .next,
    .update "Romance", .next,
    .update "Dune", .next,
    .update "Short reads", .next,
    .update "Classic", .next,
    .update "The characters", .next,
    .update "The dialogue",
    .ok (some { title := "Dune", author := "Frank Herbert", year := 1965 })
        (some { title := "Quiet Nights", author := "A. Lee" }) ]

/- ### Claim theorems -/

/-- Claim C1: a query that is empty after trimming makes the recommendation
operation fail client-side — the empty-query message is shown and no request
reaches the engine — regardless of any corpus state (which the handler never
consults), while a non-empty trimmed query is always forwarded, in trimmed
form. The same holds for the quiz page when no submission is in flight: an
empty built query only sets the message, and a non-empty one is sent. -/
theorem empty_query_rejected_nonempty_forwarded (query : String) (s : QuizState)
    (hs : s.isSubmitting = false) :
    (jsTrim query = "" →
      handleRecommend query = .showError "Please enter a description of what you like to read.") ∧
    (jsTrim query ≠ "" → handleRecommend query = .sendRequest (jsTrim query)) ∧
    (buildQuery s.answers = "" →
      submitRecommendations s =
        { s with message := "Please answer the questions before submitting." }) ∧
    (buildQuery s.answers ≠ "" →
      (submitRecommendations s).inFlight = s.inFlight ++ [buildQuery s.answers]) := by
  refine ⟨fun h => ?_, fun h => ?_, fun h => ?_, fun h => ?_⟩
  · simp [handleRecommend, h]
  · simp [handleRecommend, h]
  · simp [submitRecommendations, hs, h]
  · simp [submitRecommendations, hs, h]

/-- Concrete check for C1: the blank query " " is rejected with the message,
and for the initial quiz state (all answers blank, nothing in flight) the
built query is empty and submission only sets the message. -/
theorem empty_query_rejected_nonempty_forwarded_check :
    initQuiz.isSubmitting = false ∧
    ((jsTrim " " = "" →
       handleRecommend " " = .showError "Please enter a description of what you like to read.") ∧
     (jsTrim " " ≠ "" → handleRecommend " " = .sendRequest (jsTrim " ")) ∧
     (buildQuery initQuiz.answers = "" →
       submitRecommendations initQuiz =
         { initQuiz with message := "Please answer the questions before submitting." }) ∧
     (buildQuery initQuiz.answers ≠ "" →
       (submitRecommendations initQuiz).inFlight =
         initQuiz.inFlight ++ [buildQuery initQuiz.answers])) :=
  ⟨rfl, empty_query_rejected_nonempty_forwarded " " initQuiz rfl⟩

/-- Helper: the two exhaustive behaviours of `handleSubmit`, shared by the
claims about the review form. -/
theorem handleSubmit_cases (a t c sc : String) (img : Option String) :
    ((jsTrim a = "" ∨ jsTrim t = "" ∨ jsTrim c = "") →
      handleSubmit a t c sc img = .showError "Please fill in all required fields.") ∧
    ((jsTrim a ≠ "" ∧ jsTrim t ≠ "" ∧ jsTrim c ≠ "") →
      handleSubmit a t c sc img =
        .send { author := jsTrim a, title := jsTrim t, content := jsTrim c,
                score := jsParseInt sc, image := imageField img }) := by
  constructor
  · intro h
    simp only [handleSubmit]
    rw [if_pos h]
  · rintro ⟨h1, h2, h3⟩
    simp only [handleSubmit]
    rw [if_neg (by simp [h1, h2, h3])]

/-- Claim C2: a submission with any of author, title or content blank after
trimming fails client-side with the required-fields message and sends no
request; when all three are non-blank after trimming, the submission proceeds
(the payload is sent). -/
theorem submit_requires_trimmed_fields (a t c sc : String) (img : Option String) :
    ((jsTrim a = "" ∨ jsTrim t = "" ∨ jsTrim c = "") →
      handleSubmit a t c sc img = .showError "Please fill in all required fields.") ∧
    ((jsTrim a ≠ "" ∧ jsTrim t ≠ "" ∧ jsTrim c ≠ "") →
      handleSubmit a t c sc img =
        .send { author := jsTrim a, title := jsTrim t, content := jsTrim c,
                score := jsParseInt sc, image := imageField img }) :=
  handleSubmit_cases a t c sc img

/-- Concrete check for C2: a whitespace-only author is rejected, and fully
filled fields are sent. -/
theorem submit_requires_trimmed_fields_check :
    (jsTrim "  " = "" ∨ jsTrim "Dune" = "" ∨ jsTrim "ok" = "") ∧
    handleSubmit "  " "Dune" "ok" "5" none =
      .showError "Please fill in all required fields." :=
  ⟨Or.inl (by decide),
   (submit_requires_trimmed_fields "  " "Dune" "ok" "5" none).1 (Or.inl (by decide))⟩

/-- Claim C6: whatever payload `handleSubmit` sends carries exactly the
trimmed author, title and content of the form values. -/
theorem submit_payload_is_trimmed (a t c sc : String) (img : Option String)
    (p : SubmitPayload) (h : handleSubmit a t c sc img = .send p) :
    p.author = jsTrim a ∧ p.title = jsTrim t ∧ p.content = jsTrim c := by
  by_cases hv : jsTrim a = "" ∨ jsTrim t = "" ∨ jsTrim c = ""
  · rw [(handleSubmit_cases a t c sc img).1 hv] at h
    exact absurd h (by simp)
  · push_neg at hv
    rw [(handleSubmit_cases a t c sc img).2 ⟨hv.1, hv.2.1, hv.2.2⟩] at h
    cases h
    exact ⟨rfl, rfl, rfl⟩

/-- Concrete check for C6: the payload for padded inputs is their trimmed
form. -/
theorem submit_payload_is_trimmed_check :
    handleSubmit " A. Lee " " Quiet Nights " " drama " "7" none =
      .send { author := "A. Lee", title := "Quiet Nights", content := "drama",
              score := some 7, image := none } ∧
    ({ author := "A. Lee", title := "Quiet Nights", content := "drama",
       score := some 7, image := none } : SubmitPayload).author = jsTrim " A. Lee " ∧
    ({ author := "A. Lee", title := "Quiet Nights", content := "drama",
       score := some 7, image := none } : SubmitPayload).title = jsTrim " Quiet Nights " ∧
    ({ author := "A. Lee", title := "Quiet Nights", content := "drama",
       score := some 7, image := none } : SubmitPayload).content = jsTrim " drama " :=
  ⟨by decide, submit_payload_is_trimmed " A. Lee " " Quiet Nights " " drama " "7" none _ (by decide)⟩

/-- Claim C7: the delete passcode travels out-of-band in the
`X-Delete-Passcode` request header, and whenever the prompt is cancelled,
left empty, or the confirmation is declined, no delete request is issued and
the review list is unchanged. -/
theorem delete_needs_passcode_and_confirmation {α : Type} (reviews : List α)
    (rid : Int) (p : String) (c : Bool) (hp : p ≠ "") :
    handleDelete reviews rid none c = (reviews, none) ∧
    handleDelete reviews rid (some "") c = (reviews, none) ∧
    handleDelete reviews rid (some p) false = (reviews, none) ∧
    handleDelete reviews rid (some p) true =
      (reviews, some { reviewId := rid, method := "DELETE",
                       headers := [("X-Delete-Passcode", p)] }) := by
  refine ⟨rfl, by simp [handleDelete], by simp [handleDelete, hp], by simp [handleDelete, hp]⟩

/-- Concrete check for C7: with passcode "maroon" the guarded paths issue no
request and the confirmed path issues the header-carrying DELETE. -/
theorem delete_needs_passcode_and_confirmation_check :
    ("maroon" ≠ "") ∧
    (handleDelete ([3, 5] : List Nat) 7 none true = ([3, 5], none) ∧
     handleDelete ([3, 5] : List Nat) 7 (some "") true = ([3, 5], none) ∧
     handleDelete ([3, 5] : List Nat) 7 (some "maroon") false = ([3, 5], none) ∧
     handleDelete ([3, 5] : List Nat) 7 (some "maroon") true =
       ([3, 5], some { reviewId := 7, method := "DELETE",
                       headers := [("X-Delete-Passcode", "maroon")] })) :=
  ⟨by decide, delete_needs_passcode_and_confirmation [3, 5] 7 "maroon" true (by decide)⟩

/-- Claim C3: a submission whose score is outside the integer range [0,10] —
including a non-numeric score, which parses to none — fails with a validation
error and leaves the Review Store unchanged (same state, same row count). -/
theorem score_out_of_range_rejected (st : ReviewStore) (a t c : String) (sc : Option Int)
    (h : ∀ n : Int, sc = some n → n < 0 ∨ 10 < n) :
    (storeSubmit st a t c sc).1 = st ∧
    (storeSubmit st a t c sc).1.rows.length = st.rows.length ∧
    ∃ m, (storeSubmit st a t c sc).2 = .validationError m := by
  have hmain : (storeSubmit st a t c sc).1 = st ∧
      ∃ m, (storeSubmit st a t c sc).2 = .validationError m := by
    unfold storeSubmit
    by_cases hv : jsTrim a = "" ∨ jsTrim t = "" ∨ jsTrim c = ""
    · rw [if_pos hv]
      exact ⟨rfl, _, rfl⟩
    · rw [if_neg hv]
      cases sc with
      | none => exact ⟨rfl, _, rfl⟩
      | some n =>
        dsimp only
        rw [if_pos (h n rfl)]
        exact ⟨rfl, _, rfl⟩
  exact ⟨hmain.1, by rw [hmain.1], hmain.2⟩

/-- Concrete check for C3: submitting score 11 (as parsed from the form
string "11") against an empty store yields a validation error and an
unchanged store. -/
theorem score_out_of_range_rejected_check :
    (∀ n : Int, jsParseInt "11" = some n → n < 0 ∨ 10 < n) ∧
    ((storeSubmit { rows := [], nextId := 1 } "Alice" "Dune" "Great book" (jsParseInt "11")).1 =
        { rows := [], nextId := 1 } ∧
      (storeSubmit { rows := [], nextId := 1 } "Alice" "Dune" "Great book"
          (jsParseInt "11")).1.rows.length = ({ rows := [], nextId := 1 } : ReviewStore).rows.length ∧
      ∃ m, (storeSubmit { rows := [], nextId := 1 } "Alice" "Dune" "Great book"
          (jsParseInt "11")).2 = .validationError m) := by
  have h : ∀ n : Int, jsParseInt "11" = some n → n < 0 ∨ 10 < n := by
    intro n hn
    rw [show jsParseInt "11" = some 11 from by decide] at hn
    cases hn
    right
    norm_num
  exact ⟨h, score_out_of_range_rejected { rows := [], nextId := 1 } "Alice" "Dune" "Great book"
    (jsParseInt "11") h⟩

/-- Claim C4: when the Local Corpus holds fewer reviews than the configured
minimum threshold, the local side of every recommendation is null, and the
client results panel then renders the not-enough-data sentence for Our
Recommendation instead of a match. -/
theorem local_side_null_below_threshold (catalog : List CatalogEntry) (minReviews : Nat)
    (reviews : List Review) (q : String) (hq : jsTrim q ≠ "")
    (hlen : reviews.length < minReviews) :
    recommendLocal minReviews reviews q = none ∧
    recommend catalog minReviews reviews q =
      .ok { globalSide := recommendGlobal catalog q, localSide := none } ∧
    localRecDisplay none =
      "Sorry our site does not currently have enough data for Our Recommendation." := by
  have h1 : recommendLocal minReviews reviews q = none := by
    unfold recommendLocal
    rw [if_pos hlen]
  refine ⟨h1, ?_, rfl⟩
  unfold recommend
  rw [if_neg hq, h1]

/-- Concrete check for C4: with an empty review store, a threshold of three
and a non-blank query, the local side is null and the message is rendered. -/
theorem local_side_null_below_threshold_check :
    (jsTrim "science fiction" ≠ "" ∧ ([] : List Review).length < 3) ∧
    (recommendLocal 3 [] "science fiction" = none ∧
      recommend [] 3 [] "science fiction" =
        .ok { globalSide := recommendGlobal [] "science fiction", localSide := none } ∧
      localRecDisplay none =
        "Sorry our site does not currently have enough data for Our Recommendation.") :=
  ⟨⟨by decide, by decide⟩,
   local_side_null_below_threshold [] 3 [] "science fiction" (by decide) (by decide)⟩

/-- Claim C5: `recommend` is deterministic and idempotent — it never mutates
the Review Store, and a second call with the same query against the store
left by the first call and the same fixed catalog returns the identical
result. The engine is a pure function over exact rational arithmetic whose
ranking folds over documents in insertion order with a strictly-greater test,
so no randomness and no order-dependent tie flipping can occur. -/
theorem recommend_deterministic_idempotent (catalog : List CatalogEntry) (minReviews : Nat)
    (st : ReviewStore) (q : String) :
    (recommendOp catalog minReviews st q).1 = st ∧
    recommendOp catalog minReviews (recommendOp catalog minReviews st q).1 q =
      recommendOp catalog minReviews st q :=
  ⟨rfl, rfl⟩

/-- Helper: filtering a mapped list is mapping the filtered preimages. -/
theorem filter_map_swap {α β : Type} (f : α → β) (p : β → Bool) (l : List α) :
    (l.map f).filter p = (l.filter (fun x => p (f x))).map f := by
  induction l with
  | nil => rfl
  | cons x xs ih => by_cases h : p (f x) <;> simp [List.filter_cons, h, ih]

/-- Helper: a concatenation around a non-empty middle string is non-empty. -/
theorem append_mid_ne_empty (x m y : String) (hm : m.length ≠ 0) : x ++ m ++ y ≠ "" := by
  intro h
  have hl := congrArg String.length h
  simp [String.length_append] at hl
  omega

/-- Helper: a build-query clause is empty exactly when the trimmed answer is. -/
theorem queryPart_eq_empty_iff (q : Question) (raw : String) :
    queryPart q raw = "" ↔ jsTrim raw = "" := by
  unfold queryPart
  by_cases h : jsTrim raw = ""
  · simp [h]
  · rw [if_neg h]
    simp [h]
    exact append_mid_ne_empty q.prompt " " (jsTrim raw) (by decide)

/-- Helper: a " . "-join of non-empty strings is empty exactly for the empty
list. -/
theorem joinSep_dot_eq_empty (l : List String) (h : ∀ x ∈ l, x ≠ "") :
    joinSep " . " l = "" ↔ l = [] := by
  match l with
  | [] => simp [joinSep]
  | [x] =>
    simp only [joinSep]
    constructor
    · intro hc
      exact absurd hc (h x (by simp))
    · intro hc
      simp at hc
  | x :: y :: t =>
    simp only [joinSep]
    constructor
    · intro hc
      exact absurd hc (append_mid_ne_empty x " . " (joinSep " . " (y :: t)) (by decide))
    · intro hc
      simp at hc

/-- Helper: the falsiness of a clause agrees with the blankness of its
trimmed answer, at the Bool level used by `filter`. -/
theorem queryPart_bool (answers : List String) (i : Nat) :
    (queryPart (QUESTIONS.getD i defaultQuestion) (answers.getD i "") != "")
      = (jsTrim (answers.getD i "") != "") := by
  by_cases h : jsTrim (answers.getD i "") = ""
  · rw [(queryPart_eq_empty_iff _ _).mpr h, h]
  · rw [bne_iff_ne.mpr (fun hc => h ((queryPart_eq_empty_iff _ _).mp hc)),
      bne_iff_ne.mpr h]

/-- Claim C8: `buildQuery` maps the answer vector to the query
deterministically, exactly as described — the clauses `prompt SPACE trimmed
answer` of the questions with non-blank trimmed answers, in question order,
joined by " . " with unanswered questions omitted — and the query is empty
iff every answer is blank after trimming. -/
theorem buildQuery_matches_description (answers : List String) :
    buildQuery answers = buildQueryDescribed answers ∧
    (buildQuery answers = "" ↔
      ∀ i, i < QUESTIONS.length → jsTrim (answers.getD i "") = "") := by
  constructor
  · unfold buildQuery buildQueryDescribed
    rw [filter_map_swap]
    rw [List.filter_congr (fun i _ => queryPart_bool answers i)]
    apply congrArg (joinSep " . ")
    apply List.map_congr_left
    intro i hi
    rw [List.mem_filter] at hi
    have hne : jsTrim (answers.getD i "") ≠ "" := bne_iff_ne.mp hi.2
    unfold queryPart
    rw [if_neg hne]
  · unfold buildQuery
    rw [joinSep_dot_eq_empty _ (by
      intro x hx
      rw [List.mem_filter] at hx
      exact bne_iff_ne.mp hx.2)]
    rw [List.filter_eq_nil_iff]
    constructor
    · intro h i hi
      have hm := h (queryPart (QUESTIONS.getD i defaultQuestion) (answers.getD i ""))
        (List.mem_map.mpr ⟨i, List.mem_range.mpr hi, rfl⟩)
      by_contra hne
      exact hm (bne_iff_ne.mpr
        (fun hc => hne ((queryPart_eq_empty_iff _ _).mp hc)))
    · intro h x hx
      rw [List.mem_map] at hx
      obtain ⟨i, hi, rfl⟩ := hx
      intro hc
      exact absurd ((queryPart_eq_empty_iff _ _).mpr (h i (List.mem_range.mp hi)))
        (bne_iff_ne.mp hc)

/-- Concrete check for C8: the description and the emptiness criterion,
instantiated at a vector answering only the free-text question. -/
theorem buildQuery_matches_description_check :
    buildQuery ["", "", "", "", "", "", "", " Dune ", "", "", ""] =
      buildQueryDescribed ["", "", "", "", "", "", "", " Dune ", "", "", ""] ∧
    (buildQuery ["", "", "", "", "", "", "", " Dune ", "", "", ""] = "" ↔
      ∀ i, i < QUESTIONS.length →
        jsTrim ((["", "", "", "", "", "", "", " Dune ", "", "", ""] : List String).getD i "")
          = "") :=
  buildQuery_matches_description ["", "", "", "", "", "", "", " Dune ", "", "", ""]

/-- Helper: `submitRecommendations` preserves the mutual-exclusion invariant. -/
theorem submit_preserves_inv (s : QuizState) (h : QuizInv s) :
    QuizInv (submitRecommendations s) := by
  unfold submitRecommendations
  by_cases hs : s.isSubmitting = true
  · rw [if_pos hs]
    exact h
  · have hs' : s.isSubmitting = false := by
      cases hb : s.isSubmitting
      · rfl
      · exact absurd hb hs
    rw [if_neg hs]
    have hfl : s.inFlight = [] := h.1 hs'
    by_cases hq : buildQuery s.answers = ""
    · dsimp only
      rw [if_pos hq]
      exact h
    · dsimp only
      rw [if_neg hq]
      refine ⟨fun hc => by simp at hc, ?_⟩
      simp [hfl]

/-- Helper: a successful settle preserves the mutual-exclusion invariant. -/
theorem settleOk_preserves_inv (s : QuizState) (g : Option GlobalRecT)
    (l : Option LocalRecT) (h : QuizInv s) : QuizInv (settleOk s g l) := by
  unfold settleOk
  cases hf : s.inFlight with
  | nil => exact h
  | cons q rest =>
    have hr : rest = [] := by
      have hlen := h.2
      rw [hf, List.length_cons] at hlen
      exact List.length_eq_zero.mp (by omega)
    exact ⟨fun _ => hr, by simp [hr]⟩

/-- Helper: a failed settle preserves the mutual-exclusion invariant. -/
theorem settleErr_preserves_inv (s : QuizState) (h : QuizInv s) :
    QuizInv (settleErr s) := by
  unfold settleErr
  cases hf : s.inFlight with
  | nil => exact h
  | cons q rest =>
    have hr : rest = [] := by
      have hlen := h.2
      rw [hf, List.length_cons] at hlen
      exact List.length_eq_zero.mp (by omega)
    exact ⟨fun _ => hr, by simp [hr]⟩

/-- Helper: every event of the recommendation page preserves the
mutual-exclusion invariant. -/
theorem quizStep_preserves_inv (s : QuizState) (e : QuizEvent) (h : QuizInv s) :
    QuizInv (quizStep s e) := by
  cases e with
  | update v =>
    exact ⟨h.1, h.2⟩
  | next =>
    show QuizInv (goNext s)
    unfold goNext
    by_cases hc : canProceed s = true
    · rw [if_neg (by simp [hc])]
      by_cases hstep : s.step < QUESTIONS.length - 1
      · dsimp only
        rw [if_pos hstep]
        exact ⟨h.1, h.2⟩
      · dsimp only
        rw [if_neg hstep]
        exact submit_preserves_inv _ ⟨h.1, h.2⟩
    · rw [if_pos (by simp [hc])]
      exact ⟨h.1, h.2⟩
  | back =>
    show QuizInv (goBack s)
    unfold goBack
    by_cases hstep : 0 < s.step
    · rw [if_pos hstep]
      exact ⟨h.1, h.2⟩
    · rw [if_neg hstep]
      exact h
  | ok g l => exact settleOk_preserves_inv s g l h
  | err => exact settleErr_preserves_inv s h

/-- Helper: the invariant holds in every state the page can reach. -/
theorem runQuiz_inv (es : List QuizEvent) : QuizInv (runQuiz es) := by
  have main : ∀ s, QuizInv s → QuizInv (es.foldl quizStep s) := by
    induction es with
    | nil => exact fun s h => h
    | cons e es ih => exact fun s h => ih _ (quizStep_preserves_inv s e h)
  exact main initQuiz ⟨fun _ => rfl, by simp [initQuiz]⟩

/-- Claim C9: at most one recommendation request is ever in flight — while
`isSubmitting` is true, `submitRecommendations` is a no-op; and since the
flag is set exactly when a request is sent and reset exactly when the
in-flight request settles, every reachable state of the page carries at most
one in-flight request, and none at all whenever `isSubmitting` is false, so a
second submission can never start before the first completes. -/
theorem at_most_one_request_in_flight (s : QuizState) (es : List QuizEvent)
    (h : s.isSubmitting = true) :
    submitRecommendations s = s ∧
    (runQuiz es).inFlight.length ≤ 1 ∧
    ((runQuiz es).isSubmitting = false → (runQuiz es).inFlight = []) := by
  refine ⟨?_, (runQuiz_inv es).2, (runQuiz_inv es).1⟩
  unfold submitRecommendations
  rw [if_pos h]

/-- Concrete check for C9: from a state marked submitting, submission is a
no-op, and the trace consisting of one next-click keeps the bound. -/
theorem at_most_one_request_in_flight_check :
    ({ initQuiz with isSubmitting := true } : QuizState).isSubmitting = true ∧
    (submitRecommendations { initQuiz with isSubmitting := true } =
        { initQuiz with isSubmitting := true } ∧
      (runQuiz [.next]).inFlight.length ≤ 1 ∧
      ((runQuiz [.next]).isSubmitting = false → (runQuiz [.next]).inFlight = [])) :=
  ⟨rfl, at_most_one_request_in_flight { initQuiz with isSubmitting := true } [.next] rfl⟩

/-- Claim C10 counterexample: after the UI-producible trace `staleTrace` —
answer all questions, submit, then edit the last answer while the request is
still in flight (the answer buttons are not disabled), after which the
response arrives — the results panel is shown although the recorded query
that produced the displayed results differs from the query built from the
current answers: the shown results were produced from a query built before
the most recent answer change, refuting the claimed never-stale invariant. -/
theorem stale_results_counterexample :
    (runQuiz staleTrace).showResults = true ∧
    (runQuiz staleTrace).resultsQuery ≠ some (buildQuery (runQuiz staleTrace).answers) := by
  decide

/-- Claim C10 amended: every edit of any quiz answer (updateAnswer) clears
both displayed recommendations (globalRec and localRec set to null,
showResults set to false); however, a recommendation response already in
flight at the time of the edit may later re-display results produced from the
query built before that edit. -/
theorem update_answer_clears_results (s : QuizState) (v : String) :
    (updateAnswer s v).globalRec = none ∧ (updateAnswer s v).localRec = none ∧
    (updateAnswer s v).showResults = false :=
  ⟨rfl, rfl, rfl⟩

end BookHub
